import Mathlib

/-!
Shallow embedding of the Promptsmith web client (frontend/src/api/client.ts,
frontend/src/api/mappers.ts, frontend/src/state/store.ts,
frontend/src/features/eval-workbench/EvalWorkbench.tsx,
frontend/src/features/prompt-workbench/PromptWorkbench.tsx).

Modelling conventions:
* TypeScript `string` fields become `String`; optional / nullable fields
  (`x?: T`, `T | null`) become `Option T`.
* `created_at` timestamps are compared in the source through
  `new Date(s).getTime()`; we carry the parsed millisecond value as an `Int`.
* JavaScript numbers used only in comparisons (`confidence`,
  `composite_score`) are modelled as exact rationals `ℚ`; the branch
  structure of the code does not depend on floating-point rounding.
* JavaScript truthiness on optional strings (`if (s)`, `s || undefined`)
  is `strTruthy : Option String → Bool` (false on `none` and on `some ""`).
* `Array.prototype.sort` is stable (ECMAScript 2019+); it is modelled by a
  left-fold insertion sort that inserts each element after all previously
  inserted elements whose key is not smaller.
-/

namespace Promptsmith

/-- JavaScript `String.prototype.trim`: removes leading and trailing
whitespace.  Defined over the character list (rather than through
`String.trim`) so that it evaluates by kernel reduction. -/
def jsTrim (s : String) : String :=
  ⟨((s.data.dropWhile Char.isWhitespace).reverse.dropWhile Char.isWhitespace).reverse⟩

/-- JavaScript truthiness of an optional string: `undefined`, `null` and
the empty string are falsy, every other string is truthy. -/
def strTruthy : Option String → Bool
  | none => false
  | some s => !s.isEmpty

/-- The JS coercion `s || undefined` on an optional string: keeps the value
when truthy, collapses falsy values to `none`. -/
def valueOrNone (o : Option String) : Option String :=
  if strTruthy o then o else none

theorem strTruthy_none : strTruthy none = false := rfl

/-- HistoryItem (frontend/src/api/types.ts).  `created_at` is the parsed
`new Date(created_at).getTime()` millisecond value used by the comparator
`byCreatedAtDesc` in mappers.ts. -/
structure HistoryItem where
  commit_id : String
  created_at : Int
  status : String := "success"
  prompt : String := ""
deriving Repr, DecidableEq

/-- HistoryResponse (frontend/src/api/types.ts). -/
structure HistoryResponse where
  items : List HistoryItem
  next_cursor : Option String := none
  active_baseline_commit_id : Option String := none
deriving Repr, DecidableEq

/-- One step of the stable sort behind `[...input.items].sort(byCreatedAtDesc)`
(mappers.ts): the comparator is `(a, b) => b.getTime() - a.getTime()`, i.e.
descending `created_at`.  Inserting the next element of the input after all
already placed elements whose `created_at` is not smaller realises exactly the
stable descending sort mandated by ECMAScript. -/
def insertByCreatedAtDesc (a : HistoryItem) : List HistoryItem → List HistoryItem
  | [] => [a]
  | b :: rest =>
      if b.created_at < a.created_at then a :: b :: rest
      else b :: insertByCreatedAtDesc a rest

/-- Stable descending-by-`created_at` sort of the history items
(`[...input.items].sort(byCreatedAtDesc)` in mappers.ts). -/
def sortByCreatedAtDesc (items : List HistoryItem) : List HistoryItem :=
  items.foldl (fun acc a => insertByCreatedAtDesc a acc) []

/-- normalizeHistoryResponse (frontend/src/api/mappers.ts): returns the
response with its items sorted newest-first by `created_at`. -/
def normalizeHistoryResponse (input : HistoryResponse) : HistoryResponse :=
  { input with items := sortByCreatedAtDesc input.items }

/-- Descending order on the parsed `created_at` timestamps: the property the
comparator `byCreatedAtDesc` establishes. -/
def CreatedAtDesc (l : List HistoryItem) : Prop :=
  l.Pairwise (fun x y => y.created_at ≤ x.created_at)

/-- EvalSuggestion (frontend/src/api/types.ts). -/
structure EvalSuggestion where
  prompt_text : String
  rationale : String
deriving Repr, DecidableEq

/-- The default suggestion `{ prompt_text: "", rationale: "" }` substituted by
normalizeEvalRunResponse for a missing suggestion slot. -/
def emptySuggestion : EvalSuggestion := { prompt_text := "", rationale := "" }

/-- The three-slot suggestions object of a normalized EvalRunResponse. -/
structure EvalSuggestions where
  conservative : EvalSuggestion
  balanced : EvalSuggestion
  aggressive : EvalSuggestion
deriving Repr, DecidableEq

/-- EvalVariant (frontend/src/api/types.ts), restricted to the fields the
verified code paths read: `resolveWinnerBranchDecision` uses `variant_id`,
`commit_id`, `confidence` and `composite_score`; the remaining fields of the
interface are display-only.  `confidence` and `composite_score` are modelled
as exact rationals. -/
structure EvalVariant where
  variant_id : String
  commit_id : Option String := none
  confidence : ℚ
  composite_score : ℚ
deriving Repr, DecidableEq

/-- The raw `suggestions` object of a server eval-run payload before
normalization: each of the three slots may be absent
(`input.suggestions?.conservative` etc. in mappers.ts). -/
structure RawEvalSuggestions where
  conservative : Option EvalSuggestion := none
  balanced : Option EvalSuggestion := none
  aggressive : Option EvalSuggestion := none
deriving Repr, DecidableEq

/-- An eval-run payload as received from the server, before
normalizeEvalRunResponse: `degraded` may be missing (`Boolean(input.degraded)`),
the three collection fields may be missing or not arrays
(`Array.isArray(input.variants) ? input.variants : []`), and the whole
`suggestions` object may be missing.  `none` covers both an absent field and a
non-array value, which the source treats identically. -/
structure RawEvalRun where
  run_id : String
  status : String
  stage : String := ""
  error : Option String := none
  degraded : Option Bool := none
  variants : Option (List EvalVariant) := none
  leaderboard : Option (List EvalVariant) := none
  top_k : Option (List String) := none
  suggestions : Option RawEvalSuggestions := none
  anchor_commit_id : Option String := none
deriving Repr, DecidableEq

/-- A normalized eval run as produced by normalizeEvalRunResponse and consumed
by the polling loop of `runEvalPipeline` (state/store.ts). -/
structure EvalRun where
  run_id : String
  status : String
  stage : String := ""
  error : Option String := none
  degraded : Bool
  variants : List EvalVariant
  leaderboard : List EvalVariant
  top_k : List String
  suggestions : EvalSuggestions
  anchor_commit_id : Option String := none
deriving Repr, DecidableEq

/-- normalizeEvalRunResponse (frontend/src/api/mappers.ts): coerces `degraded`
to a boolean, replaces missing or non-array `variants`, `leaderboard` and
`top_k` by `[]`, and fills each of the three suggestion slots with
`{ prompt_text: "", rationale: "" }` when absent.  All other fields are
carried over by the object spread `...input`. -/
def normalizeEvalRunResponse (input : RawEvalRun) : EvalRun :=
  { run_id := input.run_id
    status := input.status
    stage := input.stage
    error := input.error
    degraded := input.degraded.getD false
    variants := input.variants.getD []
    leaderboard := input.leaderboard.getD []
    top_k := input.top_k.getD []
    suggestions :=
      { conservative := ((input.suggestions.bind (·.conservative)).getD emptySuggestion)
        balanced := ((input.suggestions.bind (·.balanced)).getD emptySuggestion)
        aggressive := ((input.suggestions.bind (·.aggressive)).getD emptySuggestion) }
    anchor_commit_id := input.anchor_commit_id }

/-- The terminal statuses of runEvalPipeline (state/store.ts):
`new Set(["completed", "completed_degraded", "failed"])`. -/
def terminalStatuses : List String := ["completed", "completed_degraded", "failed"]

/-- Membership in the terminal-status set (`terminalStatuses.has(status)`). -/
def isTerminal (status : String) : Bool := terminalStatuses.contains status

/-- The delay in milliseconds slept before each poll (`await sleep(1200)`). -/
def pollDelayMs : Nat := 1200

/-- The maximum number of polling attempts (`attempt < 90`). -/
def maxPollAttempts : Nat := 90

/-- The polling for-loop of runEvalPipeline (state/store.ts):
`for (attempt = 0; attempt < 90; attempt++) { if terminal break; sleep(1200);
currentRun = normalize(GET /eval-runs/id) }`.  `getRaw k` is the raw server
response to the (k+1)-th GET; `polls` counts the GETs issued so far and
doubles as the loop index `attempt`; `remaining` is the fuel left.
Returns the final run together with the number of GETs issued. -/
def pollEvalAux (getRaw : Nat → RawEvalRun) :
    Nat → Nat → EvalRun → EvalRun × Nat
  | 0, polls, current => (current, polls)
  | remaining + 1, polls, current =>
      if isTerminal current.status then (current, polls)
      else pollEvalAux getRaw remaining (polls + 1)
        (normalizeEvalRunResponse (getRaw polls))

/-- The whole polling phase of runEvalPipeline: start from the normalized
create-response and poll at most 90 times. -/
def pollEvalRun (getRaw : Nat → RawEvalRun) (createResp : RawEvalRun) :
    EvalRun × Nat :=
  pollEvalAux getRaw maxPollAttempts 0 (normalizeEvalRunResponse createResp)

/-- The run the loop inspects just before issuing poll number `k`: the create
response for `k = 0`, the response to GET number `k` afterwards. -/
def runSeen (getRaw : Nat → RawEvalRun) (createResp : RawEvalRun) : Nat → EvalRun
  | 0 => normalizeEvalRunResponse createResp
  | k + 1 => normalizeEvalRunResponse (getRaw k)

/-- RequestError (frontend/src/api/types.ts), with `operation` kept as the
literal operation key string. -/
structure RequestError where
  code : String
  message : String
  requestId : Option String := none
  status : Nat
  operation : String
  retryable : Bool
deriving Repr, DecidableEq

/-- The error built by runEvalPipeline when polling ends on a `failed` run:
`{ code: "EVAL_RUN_FAILED", message: currentRun.error || "Eval run failed.",
status: 500, operation: "eval", retryable: true }`. -/
def evalRunFailure (run : EvalRun) : RequestError :=
  { code := "EVAL_RUN_FAILED"
    message := if strTruthy run.error then run.error.getD "" else "Eval run failed."
    status := 500
    operation := "eval"
    retryable := true }

/-- The state runEvalPipeline leaves behind after the polling loop: the eval
request state, the recorded `lastError`, and the toast it pushes. -/
structure EvalCompletion where
  requestState : String
  lastError : Option RequestError := none
  toastKind : String
  toastMessage : String
deriving Repr, DecidableEq

/-- The post-loop classification of runEvalPipeline (state/store.ts): a
`failed` run surfaces `EVAL_RUN_FAILED` from `run.error`; a run still not
terminal after the loop is reported as success with an info toast that it is
still running in background; a terminal non-failed run is a success. -/
def classifyEvalCompletion (run : EvalRun) : EvalCompletion :=
  if run.status = "failed" then
    { requestState := "error"
      lastError := some (evalRunFailure run)
      toastKind := "error"
      toastMessage := (evalRunFailure run).message }
  else if !isTerminal run.status then
    { requestState := "success"
      lastError := none
      toastKind := "info"
      toastMessage := "Eval run " ++ run.run_id ++ " is still running in background." }
  else
    { requestState := "success"
      lastError := none
      toastKind := if run.degraded then "info" else "success"
      toastMessage :=
        if run.degraded then "Eval " ++ run.run_id ++ " completed in degraded mode."
        else "Eval " ++ run.run_id ++ " completed." }

/-- The compare request body sent by `apiClient.compare` (client.ts). -/
structure CompareRequest where
  project_id : String
  candidate_commit_id : String
  baseline_commit_id : String
deriving Repr, DecidableEq

/-- What compareCommit (state/store.ts) does before any network activity:
either it fails locally with `BASELINE_NOT_SET` (no request is sent) or it
dispatches a compare request with the resolved baseline. -/
inductive CompareAction where
  | fail (err : RequestError)
  | request (req : CompareRequest)
deriving Repr, DecidableEq

/-- The local error compareCommit raises when no baseline can be resolved. -/
def baselineNotSetError : RequestError :=
  { code := "BASELINE_NOT_SET"
    message := "Set a baseline commit to run regression checks."
    status := 400
    operation := "compare"
    retryable := false }

/-- compareCommit (state/store.ts), reduced to its dispatch decision:
`resolvedBaselineId = baselineCommitId ?? activeBaselineCommitId`; if the
result is falsy the operation fails with `BASELINE_NOT_SET` and returns
before `apiClient.compare` is called; otherwise the request is sent with the
resolved baseline. -/
def compareCommitAction (projectId : String) (activeBaselineCommitId : Option String)
    (commitId : String) (baselineCommitId : Option String) : CompareAction :=
  let resolvedBaselineId : Option String :=
    match baselineCommitId with
    | some b => some b
    | none => activeBaselineCommitId
  if strTruthy resolvedBaselineId then
    CompareAction.request
      { project_id := projectId
        candidate_commit_id := commitId
        baseline_commit_id := resolvedBaselineId.getD "" }
  else
    CompareAction.fail baselineNotSetError

/-- The value of the stored `latestCompareResult` right after compareCommit
dispatches: the early `BASELINE_NOT_SET` return leaves it untouched, while the
request branch clears it (`latestCompareResult: undefined`) before awaiting
the server. -/
def compareResultAfterDispatch {α : Type} (previous : Option α)
    (action : CompareAction) : Option α :=
  match action with
  | CompareAction.fail _ => previous
  | CompareAction.request _ => none

/-- ApiClientError (frontend/src/api/client.ts), as a plain record. -/
structure ApiClientError where
  code : String
  message : String
  requestId : Option String := none
  status : Nat
  retryable : Bool
deriving Repr, DecidableEq

/-- The `error` member of a parsed error envelope; the body is
`Partial<ApiErrorEnvelope>`, so every field may be absent. -/
structure ApiErrorBody where
  code : Option String := none
  message : Option String := none
  request_id : Option String := none
deriving Repr, DecidableEq

/-- A parsed response body: the `error` member itself may be absent. -/
structure ParsedEnvelope where
  error : Option ApiErrorBody := none
deriving Repr, DecidableEq

/-- ApiClient.parseError (client.ts).  `parsed` is `none` when the body was
absent or not valid JSON (the `catch` sets `parsed = null`):
`code = parsed?.error?.code ?? "UNKNOWN_ERROR"`,
`message = parsed?.error?.message ?? "Request failed with status <s>."`,
`request_id = parsed?.error?.request_id`,
`retryable = status >= 500 || status === 429`. -/
def parseError (status : Nat) (parsed : Option ParsedEnvelope) : ApiClientError :=
  { code := ((parsed.bind (·.error)).bind (·.code)).getD "UNKNOWN_ERROR"
    message := ((parsed.bind (·.error)).bind (·.message)).getD
      ("Request failed with status " ++ toString status ++ ".")
    requestId := (parsed.bind (·.error)).bind (·.request_id)
    status := status
    retryable := decide (500 ≤ status) || decide (status = 429) }

/-- `response.ok` of the Fetch API: status in the inclusive range 200-299. -/
def responseOk (status : Nat) : Bool := decide (200 ≤ status) && decide (status < 300)

/-- ApiClient.request (client.ts), reduced to its status handling: a non-2xx
response throws the `ApiClientError` built by parseError, a 2xx response
yields the JSON body. -/
def requestOutcome {β : Type} (status : Nat) (parsed : Option ParsedEnvelope)
    (body : β) : Except ApiClientError β :=
  if responseOk status then Except.ok body else Except.error (parseError status parsed)

/-- ApiClient.getHistory (client.ts): query parameters in insertion order.
`URLSearchParams({project_id, limit})` holds the two base entries and
`if (cursor) search.set("cursor", cursor)` appends the cursor only when it is
truthy.  The TypeScript default argument is `limit = 20`. -/
def getHistoryQuery (projectId : String) (limit : Nat := 20)
    (cursor : Option String := none) : List (String × String) :=
  let base := [("project_id", projectId), ("limit", toString limit)]
  if strTruthy cursor then base ++ [("cursor", cursor.getD "")] else base

/-- The /generate call issued by the generateCommit store action on behalf of the
Prompt Workbench: the prompt, the optional seed (`seed.trim() || undefined`)
and the optional lineage parent. -/
structure GenerateCall where
  prompt : String
  seed : Option String := none
  parentCommitId : Option String := none
deriving Repr, DecidableEq

/-- The minimum prompt length of the Prompt Workbench
(`const minPromptLength = 5`). -/
def minPromptLength : Nat := 5

/-- PromptWorkbench.onSubmit (PromptWorkbench.tsx): trims the prompt, returns
without calling generateCommit when the trimmed prompt is shorter than
`minPromptLength`, otherwise calls generateCommit with the trimmed prompt,
the trimmed seed coerced through `|| undefined`, and the parent commit. -/
def promptWorkbenchSubmit (prompt : String) (seed : String)
    (parentCommitId : Option String) : Option GenerateCall :=
  let trimmed := jsTrim prompt
  if trimmed.length < minPromptLength then none
  else some
    { prompt := trimmed
      seed := if (jsTrim seed).isEmpty then none else some (jsTrim seed)
      parentCommitId := parentCommitId }

/-- EvalControlState (EvalWorkbench.tsx): `variantCount` is kept as an `Int`
so that the coercion performed by readControls is a provable property rather
than a typing assumption, and `objectivePreset` as a `String` likewise. -/
structure EvalControlState where
  basePrompt : String
  objectivePreset : String
  variantCount : Int
deriving Repr, DecidableEq

/-- `defaultControls` (EvalWorkbench.tsx). -/
def defaultControls : EvalControlState :=
  { basePrompt := "", objectivePreset := "adherence", variantCount := 3 }

/-- A value of type `Partial<EvalControlState>` parsed from localStorage:
every key may be absent, and present values are unconstrained. -/
structure PartialEvalControls where
  basePrompt : Option String := none
  objectivePreset : Option String := none
  variantCount : Option Int := none
deriving Repr, DecidableEq

/-- readControls (EvalWorkbench.tsx) applied to a successfully parsed
localStorage payload: spreads the defaults, then the parsed value, then
coerces `variantCount` to 3 unless it is exactly 2 or 3, and
`objectivePreset` to "adherence" unless it is "aesthetic" or "product". -/
def readControlsParsed (parsed : PartialEvalControls) : EvalControlState :=
  { basePrompt := parsed.basePrompt.getD defaultControls.basePrompt
    objectivePreset :=
      if parsed.objectivePreset = some "aesthetic" then "aesthetic"
      else if parsed.objectivePreset = some "product" then "product"
      else "adherence"
    variantCount :=
      if parsed.variantCount = some 2 then 2
      else if parsed.variantCount = some 3 then 3
      else 3 }

/-- readControls (EvalWorkbench.tsx): `none` covers a missing `window`, a
missing storage key and a JSON.parse failure, all of which return
`defaultControls`. -/
def readControls (raw : Option PartialEvalControls) : EvalControlState :=
  match raw with
  | none => defaultControls
  | some parsed => readControlsParsed parsed

/-- `WINNER_MIN_CONFIDENCE` (EvalWorkbench.tsx). -/
def WINNER_MIN_CONFIDENCE : ℚ := 62 / 100

/-- `WINNER_MIN_SCORE_MARGIN` (EvalWorkbench.tsx). -/
def WINNER_MIN_SCORE_MARGIN : ℚ := 35 / 1000

/-- The branching mode of a BranchDecision (EvalWorkbench.tsx). -/
inductive BranchMode where
  | winner
  | anchor
  | new_anchor
deriving Repr, DecidableEq

/-- BranchDecision (EvalWorkbench.tsx), without the display-only `reason`
string, whose content is formatted from the same data. -/
structure BranchDecision where
  parentCommitId : Option String := none
  mode : BranchMode
  scoreMargin : Option ℚ := none
deriving Repr, DecidableEq

/-- resolveWinnerBranchDecision (EvalWorkbench.tsx).  `leaderboard[0]` /
`leaderboard[1]` become `leaderboard[0]?` / `leaderboard[1]?`; the JS
truthiness tests `!top.commit_id` and `anchorParentCommitId ? ... : ...` are
`strTruthy`. -/
def resolveWinnerBranchDecision (leaderboard : List EvalVariant)
    (anchorParentCommitId : Option String) : BranchDecision :=
  match leaderboard[0]? with
  | none =>
      if strTruthy anchorParentCommitId then
        { parentCommitId := anchorParentCommitId, mode := BranchMode.anchor }
      else
        { parentCommitId := none, mode := BranchMode.new_anchor }
  | some top =>
      if !strTruthy top.commit_id then
        if strTruthy anchorParentCommitId then
          { parentCommitId := anchorParentCommitId, mode := BranchMode.anchor }
        else
          { parentCommitId := none, mode := BranchMode.new_anchor }
      else
        let runnerUp := leaderboard[1]?
        let scoreMargin :=
          match runnerUp with
          | some r => top.composite_score - r.composite_score
          | none => top.composite_score
        if top.confidence < WINNER_MIN_CONFIDENCE then
          { parentCommitId := anchorParentCommitId
            mode := if strTruthy anchorParentCommitId then BranchMode.anchor
              else BranchMode.new_anchor
            scoreMargin := some scoreMargin }
        else if runnerUp.isSome && decide (scoreMargin < WINNER_MIN_SCORE_MARGIN) then
          { parentCommitId := anchorParentCommitId
            mode := if strTruthy anchorParentCommitId then BranchMode.anchor
              else BranchMode.new_anchor
            scoreMargin := some scoreMargin }
        else
          { parentCommitId := top.commit_id
            mode := BranchMode.winner
            scoreMargin := some scoreMargin }

/-- CreateEvalRunRequest (frontend/src/api/types.ts), with the constraint
lists inlined. -/
structure CreateEvalRunRequest where
  project_id : String
  base_prompt : String
  objective_preset : String
  image_model : String
  n_variants : Int
  quality : String
  parent_commit_id : Option String := none
  must_include : List String := []
  must_avoid : List String := []
deriving Repr, DecidableEq

/-- `DEFAULT_IMAGE_MODEL` (EvalWorkbench.tsx). -/
def DEFAULT_IMAGE_MODEL : String := "gpt-image-1-mini"

/-- `DEFAULT_QUALITY` (EvalWorkbench.tsx). -/
def DEFAULT_QUALITY : String := "medium"

/-- EvalWorkbench.runEval (EvalWorkbench.tsx): trims
`options?.promptOverride ?? controls.basePrompt`, returns without calling
runEvalPipeline when the trimmed prompt is shorter than 5 characters, and
otherwise builds the payload with `lineageParentCommitId =
winnerBranchDecision.parentCommitId || undefined`. -/
def runEvalPayload (projectId : String) (controls : EvalControlState)
    (decision : BranchDecision) (promptOverride : Option String) :
    Option CreateEvalRunRequest :=
  let prompt := jsTrim (promptOverride.getD controls.basePrompt)
  if prompt.length < 5 then none
  else some
    { project_id := projectId
      base_prompt := prompt
      objective_preset := controls.objectivePreset
      image_model := DEFAULT_IMAGE_MODEL
      n_variants := controls.variantCount
      quality := DEFAULT_QUALITY
      parent_commit_id := valueOrNone decision.parentCommitId
      must_include := []
      must_avoid := [] }

theorem insertByCreatedAtDesc_perm (a : HistoryItem) (l : List HistoryItem) :
    (insertByCreatedAtDesc a l).Perm (a :: l) := by
  induction l with
  | nil => simp [insertByCreatedAtDesc]
  | cons b rest ih =>
      simp only [insertByCreatedAtDesc]
      split
      · exact List.Perm.refl _
      · exact (List.Perm.cons b ih).trans (List.Perm.swap a b rest)

theorem insertByCreatedAtDesc_pairwise (a : HistoryItem) (l : List HistoryItem)
    (h : CreatedAtDesc l) : CreatedAtDesc (insertByCreatedAtDesc a l) := by
  induction l with
  | nil => simp [insertByCreatedAtDesc, CreatedAtDesc]
  | cons b rest ih =>
      unfold CreatedAtDesc at h ⊢
      rw [List.pairwise_cons] at h
      simp only [insertByCreatedAtDesc]
      split
      · rename_i hlt
        rw [List.pairwise_cons]
        constructor
        · intro y hy
          rcases List.mem_cons.mp hy with hy | hy
          · exact hy ▸ le_of_lt hlt
          · exact le_trans (h.1 y hy) (le_of_lt hlt)
        · rw [List.pairwise_cons]
          exact h
      · rename_i hge
        rw [List.pairwise_cons]
        constructor
        · intro y hy
          rcases List.mem_cons.mp ((insertByCreatedAtDesc_perm a rest).mem_iff.mp hy) with hy | hy
          · exact hy ▸ le_of_not_lt hge
          · exact h.1 y hy
        · exact ih h.2

theorem insertByCreatedAtDesc_filter_ne (a : HistoryItem) (l : List HistoryItem)
    (t : Int) (h : a.created_at ≠ t) :
    (insertByCreatedAtDesc a l).filter (fun x => decide (x.created_at = t)) =
      l.filter (fun x => decide (x.created_at = t)) := by
  induction l with
  | nil => simp [insertByCreatedAtDesc, h]
  | cons b rest ih =>
      simp only [insertByCreatedAtDesc]
      split
      · simp [List.filter_cons, h]
      · simp only [List.filter_cons, ih]

theorem insertByCreatedAtDesc_filter_eq (a : HistoryItem) (l : List HistoryItem)
    (t : Int) (ha : a.created_at = t) (h : CreatedAtDesc l) :
    (insertByCreatedAtDesc a l).filter (fun x => decide (x.created_at = t)) =
      l.filter (fun x => decide (x.created_at = t)) ++ [a] := by
  induction l with
  | nil => simp [insertByCreatedAtDesc, ha]
  | cons b rest ih =>
      unfold CreatedAtDesc at h
      rw [List.pairwise_cons] at h
      simp only [insertByCreatedAtDesc]
      split
      · rename_i hlt
        have hnil : (b :: rest).filter (fun x => decide (x.created_at = t)) = [] := by
          rw [List.filter_eq_nil_iff]
          intro y hy
          rcases List.mem_cons.mp hy with hy | hy
          · simp [hy, ne_of_lt (ha ▸ hlt)]
          · have : y.created_at < a.created_at := lt_of_le_of_lt (h.1 y hy) hlt
            simp [ne_of_lt (ha ▸ this)]
        rw [List.filter_cons]
        simp [ha, hnil]
      · rw [List.filter_cons, List.filter_cons, ih h.2]
        split
        · rfl
        · rfl

theorem sortByCreatedAtDesc_go_perm (l acc : List HistoryItem) :
    (l.foldl (fun acc a => insertByCreatedAtDesc a acc) acc).Perm (acc ++ l) := by
  induction l generalizing acc with
  | nil => simp
  | cons a rest ih =>
      simp only [List.foldl_cons]
      refine (ih (insertByCreatedAtDesc a acc)).trans ?_
      refine (List.Perm.append_right rest (insertByCreatedAtDesc_perm a acc)).trans ?_
      simpa using List.perm_middle.symm

theorem sortByCreatedAtDesc_perm (l : List HistoryItem) :
    (sortByCreatedAtDesc l).Perm l := by
  simpa [sortByCreatedAtDesc] using sortByCreatedAtDesc_go_perm l []

theorem sortByCreatedAtDesc_go_pairwise (l acc : List HistoryItem)
    (h : CreatedAtDesc acc) :
    CreatedAtDesc (l.foldl (fun acc a => insertByCreatedAtDesc a acc) acc) := by
  induction l generalizing acc with
  | nil => exact h
  | cons a rest ih =>
      simp only [List.foldl_cons]
      exact ih _ (insertByCreatedAtDesc_pairwise a acc h)

theorem sortByCreatedAtDesc_pairwise (l : List HistoryItem) :
    CreatedAtDesc (sortByCreatedAtDesc l) := by
  exact sortByCreatedAtDesc_go_pairwise l [] (by simp [CreatedAtDesc])

theorem sortByCreatedAtDesc_go_filter (l acc : List HistoryItem) (t : Int)
    (h : CreatedAtDesc acc) :
    (l.foldl (fun acc a => insertByCreatedAtDesc a acc) acc).filter
        (fun x => decide (x.created_at = t)) =
      acc.filter (fun x => decide (x.created_at = t)) ++
        l.filter (fun x => decide (x.created_at = t)) := by
  induction l generalizing acc with
  | nil => simp
  | cons a rest ih =>
      simp only [List.foldl_cons]
      rw [ih _ (insertByCreatedAtDesc_pairwise a acc h)]
      by_cases ha : a.created_at = t
      · rw [insertByCreatedAtDesc_filter_eq a acc t ha h, List.filter_cons]
        simp [ha]
      · rw [insertByCreatedAtDesc_filter_ne a acc t ha, List.filter_cons]
        simp [ha]

theorem sortByCreatedAtDesc_filter (l : List HistoryItem) (t : Int) :
    (sortByCreatedAtDesc l).filter (fun x => decide (x.created_at = t)) =
      l.filter (fun x => decide (x.created_at = t)) := by
  simpa [sortByCreatedAtDesc] using
    sortByCreatedAtDesc_go_filter l [] t (by simp [CreatedAtDesc])

/-- Claim C2 is false as stated: normalizeHistoryResponse applies no
commit_id tiebreak.  Two responses holding the same two items with equal
`created_at` timestamps but opposite input orders are both returned
unchanged, so for at least one of them the items are not ordered by any
commit_id tiebreak. -/
theorem normalizeHistory_no_commit_id_tiebreak :
    (normalizeHistoryResponse
        { items := [{ commit_id := "c002", created_at := 5 },
                    { commit_id := "c001", created_at := 5 }] }).items.map
      (fun i => i.commit_id) = ["c002", "c001"] ∧
    (normalizeHistoryResponse
        { items := [{ commit_id := "c001", created_at := 5 },
                    { commit_id := "c002", created_at := 5 }] }).items.map
      (fun i => i.commit_id) = ["c001", "c002"] := by
  exact ⟨rfl, rfl⟩

/-- Claim C2 (amended): for every history response, normalizeHistoryResponse
returns the items ordered newest-first by `created_at`; items with equal
`created_at` keep their relative input order (the sort is stable), with no
commit_id tiebreak; the item multiset and the other response fields are
preserved. -/
theorem normalizeHistory_sorted_stable (input : HistoryResponse) :
    CreatedAtDesc (normalizeHistoryResponse input).items ∧
    ((normalizeHistoryResponse input).items).Perm input.items ∧
    (∀ t : Int,
      (normalizeHistoryResponse input).items.filter (fun x => decide (x.created_at = t)) =
        input.items.filter (fun x => decide (x.created_at = t))) ∧
    (normalizeHistoryResponse input).next_cursor = input.next_cursor ∧
    (normalizeHistoryResponse input).active_baseline_commit_id =
      input.active_baseline_commit_id :=
  ⟨sortByCreatedAtDesc_pairwise input.items, sortByCreatedAtDesc_perm input.items,
   fun t => sortByCreatedAtDesc_filter input.items t, rfl, rfl⟩

/-- Claim C10: normalizeEvalRunResponse coerces a missing `degraded` to
`false` and keeps a present boolean; replaces a missing (or non-array)
`variants`, `leaderboard` or `top_k` by the empty array and keeps present
arrays; and always produces all three suggestion slots, defaulting each to
empty `prompt_text` and `rationale` when absent. -/
theorem normalizeEvalRun_defaults (input : RawEvalRun) :
    ((input.degraded = none → (normalizeEvalRunResponse input).degraded = false) ∧
      (∀ b, input.degraded = some b → (normalizeEvalRunResponse input).degraded = b)) ∧
    ((input.variants = none → (normalizeEvalRunResponse input).variants = []) ∧
      (∀ v, input.variants = some v → (normalizeEvalRunResponse input).variants = v)) ∧
    ((input.leaderboard = none → (normalizeEvalRunResponse input).leaderboard = []) ∧
      (∀ v, input.leaderboard = some v → (normalizeEvalRunResponse input).leaderboard = v)) ∧
    ((input.top_k = none → (normalizeEvalRunResponse input).top_k = []) ∧
      (∀ v, input.top_k = some v → (normalizeEvalRunResponse input).top_k = v)) ∧
    ((input.suggestions = none →
        (normalizeEvalRunResponse input).suggestions =
          { conservative := emptySuggestion, balanced := emptySuggestion,
            aggressive := emptySuggestion }) ∧
      (∀ s, input.suggestions = some s →
        (normalizeEvalRunResponse input).suggestions.conservative =
          s.conservative.getD emptySuggestion ∧
        (normalizeEvalRunResponse input).suggestions.balanced =
          s.balanced.getD emptySuggestion ∧
        (normalizeEvalRunResponse input).suggestions.aggressive =
          s.aggressive.getD emptySuggestion)) := by
  refine ⟨⟨?_, ?_⟩, ⟨?_, ?_⟩, ⟨?_, ?_⟩, ⟨?_, ?_⟩, ⟨?_, ?_⟩⟩ <;>
    intros <;> simp_all [normalizeEvalRunResponse]

/-- Claim C10 witness: a raw run with every optional field missing is
normalized to the documented defaults. -/
theorem normalizeEvalRun_defaults_witness :
    (normalizeEvalRunResponse { run_id := "r1", status := "running" }).variants = [] ∧
    (normalizeEvalRunResponse { run_id := "r1", status := "running" }).degraded = false ∧
    (normalizeEvalRunResponse { run_id := "r1", status := "running" }).suggestions =
      { conservative := emptySuggestion, balanced := emptySuggestion,
        aggressive := emptySuggestion } :=
  ⟨(normalizeEvalRun_defaults _).2.1.1 rfl,
   (normalizeEvalRun_defaults _).1.1 rfl,
   (normalizeEvalRun_defaults _).2.2.2.2.1 rfl⟩

theorem pollEvalAux_spec (getRaw : Nat → RawEvalRun) (createResp : RawEvalRun) :
    ∀ (fuel polls : Nat),
      (pollEvalAux getRaw fuel polls (runSeen getRaw createResp polls)).2 ≤ polls + fuel ∧
      polls ≤ (pollEvalAux getRaw fuel polls (runSeen getRaw createResp polls)).2 ∧
      (pollEvalAux getRaw fuel polls (runSeen getRaw createResp polls)).1 =
        runSeen getRaw createResp
          (pollEvalAux getRaw fuel polls (runSeen getRaw createResp polls)).2 ∧
      (∀ k, polls ≤ k →
        k < (pollEvalAux getRaw fuel polls (runSeen getRaw createResp polls)).2 →
        isTerminal (runSeen getRaw createResp k).status = false) ∧
      (isTerminal (pollEvalAux getRaw fuel polls
          (runSeen getRaw createResp polls)).1.status = false →
        (pollEvalAux getRaw fuel polls (runSeen getRaw createResp polls)).2 =
          polls + fuel) := by
  intro fuel
  induction fuel with
  | zero =>
      intro polls
      simp only [pollEvalAux]
      exact ⟨by omega, le_refl _, by trivial, fun k h1 h2 => absurd h2 (by omega),
        fun _ => by omega⟩
  | succ fuel ih =>
      intro polls
      simp only [pollEvalAux]
      by_cases hterm : isTerminal (runSeen getRaw createResp polls).status = true
      · rw [if_pos hterm]
        exact ⟨by omega, le_refl _, by trivial, fun k h1 h2 => absurd h2 (by omega),
          fun hnt => absurd hterm (by simp [hnt])⟩
      · rw [if_neg hterm]
        have hstep : normalizeEvalRunResponse (getRaw polls) =
            runSeen getRaw createResp (polls + 1) := rfl
        rw [hstep]
        obtain ⟨ha, hb, hc, hd, he⟩ := ih (polls + 1)
        refine ⟨by omega, by omega, hc, ?_, fun h => by rw [he h]; omega⟩
        intro k hk1 hk2
        rcases Nat.eq_or_lt_of_le hk1 with heq | hlt
        · exact heq ▸ Bool.eq_false_iff.mpr hterm
        · exact hd k hlt hk2

/-- Claim C1: runEvalPipeline polls GET /eval-runs/id at most 90 times, with
a 1200 ms sleep before each poll (a budget of 108000 ms); the final run is
the last snapshot seen; every snapshot inspected before a poll was issued was
non-terminal, so polling stops as soon as a snapshot status is one of
completed, completed_degraded or failed; and when the final snapshot is still
not terminal the loop has used all 90 attempts and the client marks the eval
operation a success with an info toast that the run is still running in
background. -/
theorem evalPolling_budget (getRaw : Nat → RawEvalRun) (createResp : RawEvalRun) :
    (pollEvalRun getRaw createResp).2 ≤ maxPollAttempts ∧
    pollDelayMs * (pollEvalRun getRaw createResp).2 ≤ 108000 ∧
    (pollEvalRun getRaw createResp).1 =
      runSeen getRaw createResp (pollEvalRun getRaw createResp).2 ∧
    (∀ k, k < (pollEvalRun getRaw createResp).2 →
      isTerminal (runSeen getRaw createResp k).status = false) ∧
    (∀ k, isTerminal (runSeen getRaw createResp k).status = true →
      (pollEvalRun getRaw createResp).2 ≤ k) ∧
    (isTerminal (pollEvalRun getRaw createResp).1.status = false →
      (pollEvalRun getRaw createResp).2 = maxPollAttempts ∧
      classifyEvalCompletion (pollEvalRun getRaw createResp).1 =
        { requestState := "success", lastError := none, toastKind := "info",
          toastMessage := "Eval run " ++ (pollEvalRun getRaw createResp).1.run_id ++
            " is still running in background." }) := by
  have hdef : pollEvalRun getRaw createResp =
      pollEvalAux getRaw maxPollAttempts 0 (runSeen getRaw createResp 0) := rfl
  obtain ⟨ha, _, hc, hd, he⟩ := pollEvalAux_spec getRaw createResp maxPollAttempts 0
  rw [hdef]
  refine ⟨by simpa using ha, ?_, hc, fun k hk => hd k (Nat.zero_le k) hk, ?_, ?_⟩
  · have : (pollEvalAux getRaw maxPollAttempts 0 (runSeen getRaw createResp 0)).2 ≤ 90 := by
      simpa [maxPollAttempts] using ha
    simp only [pollDelayMs]
    omega
  · intro k hk
    by_contra hlt
    exact absurd (hd k (Nat.zero_le k) (by omega)) (by simp [hk])
  · intro hnt
    have hstop : (pollEvalAux getRaw maxPollAttempts 0 (runSeen getRaw createResp 0)).2 =
        maxPollAttempts := by simpa using he hnt
    refine ⟨hstop, ?_⟩
    have hfail : (pollEvalAux getRaw maxPollAttempts 0
        (runSeen getRaw createResp 0)).1.status ≠ "failed" := by
      intro heq
      rw [heq] at hnt
      simp [isTerminal, terminalStatuses] at hnt
    simp [classifyEvalCompletion, hfail, hnt]

/-- Claim C1 witness: with a server that always answers `running`, the client
issues exactly 90 polls and then reports a still-running success. -/
theorem evalPolling_budget_witness :
    (pollEvalRun (fun _ => { run_id := "r1", status := "running" })
        { run_id := "r1", status := "queued" }).2 = maxPollAttempts ∧
    (classifyEvalCompletion
        (pollEvalRun (fun _ => { run_id := "r1", status := "running" })
          { run_id := "r1", status := "queued" }).1).requestState = "success" := by
  have h := (evalPolling_budget (fun _ => { run_id := "r1", status := "running" })
    { run_id := "r1", status := "queued" }).2.2.2.2.2 (by decide)
  exact ⟨h.1, by rw [h.2]⟩

/-- Claim C3: whenever the polling loop ends on a run whose status is
`failed`, runEvalPipeline records an error whose code is EVAL_RUN_FAILED with
client-side status 500, marked retryable, whose message is the run `error`
field when that is non-null and non-empty and "Eval run failed." otherwise;
the failure is a function of the run payload alone, not of an HTTP error
status. -/
theorem evalFailed_surfaces_run_error (run : EvalRun) (h : run.status = "failed") :
    (classifyEvalCompletion run).requestState = "error" ∧
    (classifyEvalCompletion run).lastError = some (evalRunFailure run) ∧
    (evalRunFailure run).code = "EVAL_RUN_FAILED" ∧
    (evalRunFailure run).status = 500 ∧
    (evalRunFailure run).retryable = true ∧
    ((∃ s, run.error = some s ∧ s ≠ "" ∧ (evalRunFailure run).message = s) ∨
      ((run.error = none ∨ run.error = some "") ∧
        (evalRunFailure run).message = "Eval run failed.")) := by
  refine ⟨by simp [classifyEvalCompletion, h], by simp [classifyEvalCompletion, h],
    rfl, rfl, rfl, ?_⟩
  match herr : run.error with
  | none =>
      exact Or.inr ⟨Or.inl rfl, by simp [evalRunFailure, strTruthy, herr]⟩
  | some s =>
      by_cases hs : s = ""
      · subst hs
        have hemp : ("" : String).isEmpty = true := rfl
        exact Or.inr ⟨Or.inr rfl, by simp [evalRunFailure, strTruthy, herr, hemp]⟩
      · refine Or.inl ⟨s, rfl, hs, ?_⟩
        have hempty : s.isEmpty = false := by
          cases hb : s.isEmpty
          · rfl
          · exact absurd ((String.isEmpty_iff s).mp hb) hs
        simp [evalRunFailure, strTruthy, herr, hempty]

/-- Claim C3 witness: a failed run with error "boom" surfaces
EVAL_RUN_FAILED with message "boom". -/
theorem evalFailed_surfaces_run_error_witness :
    (classifyEvalCompletion (normalizeEvalRunResponse
        { run_id := "r1", status := "failed", error := some "boom" })).requestState =
      "error" ∧
    (evalRunFailure (normalizeEvalRunResponse
        { run_id := "r1", status := "failed", error := some "boom" })).code =
      "EVAL_RUN_FAILED" := by
  have h := evalFailed_surfaces_run_error
    (normalizeEvalRunResponse { run_id := "r1", status := "failed", error := some "boom" })
    rfl
  exact ⟨h.1, h.2.2.1⟩

/-- Claim C4: when compareCommit is called without an explicit baseline, the
active baseline of the project is used as the baseline of the request; when no truthy
active baseline exists either, the operation fails locally with
BASELINE_NOT_SET — no /compare request is dispatched and the stored compare
result is left unchanged. -/
theorem compare_baseline_resolution (projectId commitId : String)
    (active : Option String) :
    (strTruthy active = false →
      compareCommitAction projectId active commitId none =
        CompareAction.fail baselineNotSetError ∧
      ∀ (α : Type) (prev : Option α),
        compareResultAfterDispatch prev
          (compareCommitAction projectId active commitId none) = prev) ∧
    (∀ b, active = some b → b.isEmpty = false →
      compareCommitAction projectId active commitId none =
        CompareAction.request
          { project_id := projectId, candidate_commit_id := commitId,
            baseline_commit_id := b }) := by
  constructor
  · intro h
    constructor
    · simp [compareCommitAction, h]
    · intro α prev
      simp [compareCommitAction, h, compareResultAfterDispatch]
  · intro b hb hempty
    subst hb
    simp [compareCommitAction, strTruthy, hempty]

/-- Claim C4 witness: with no active baseline the action is a local
BASELINE_NOT_SET failure; with active baseline "c1" the request carries
baseline "c1". -/
theorem compare_baseline_resolution_witness :
    compareCommitAction "default" none "c2" none =
      CompareAction.fail baselineNotSetError ∧
    compareCommitAction "default" (some "c1") "c2" none =
      CompareAction.request
        { project_id := "default", candidate_commit_id := "c2",
          baseline_commit_id := "c1" } :=
  ⟨((compare_baseline_resolution "default" "c2" none).1 rfl).1,
   (compare_baseline_resolution "default" "c2" (some "c1")).2 "c1" rfl rfl⟩

/-- Claim C5: a non-2xx response makes the client raise the ApiClientError
built by parseError: code, message and request_id come from the error
envelope; an absent or invalid body defaults the code to UNKNOWN_ERROR and
the message to "Request failed with status <status>."; and the error is
retryable exactly when the status is at least 500 or equal to 429. -/
theorem apiClient_error_envelope (status : Nat) (parsed : Option ParsedEnvelope)
    (h : responseOk status = false) :
    requestOutcome status parsed () = Except.error (parseError status parsed) ∧
    (parsed = none → (parseError status parsed).code = "UNKNOWN_ERROR" ∧
      (parseError status parsed).message =
        "Request failed with status " ++ toString status ++ ".") ∧
    (∀ body, parsed = some { error := some body } →
      (∀ c, body.code = some c → (parseError status parsed).code = c) ∧
      (∀ m, body.message = some m → (parseError status parsed).message = m) ∧
      (parseError status parsed).requestId = body.request_id) ∧
    ((parseError status parsed).retryable = true ↔ 500 ≤ status ∨ status = 429) := by
  refine ⟨by simp [requestOutcome, h], ?_, ?_, ?_⟩
  · intro hp
    subst hp
    simp [parseError]
  · intro body hp
    subst hp
    refine ⟨?_, ?_, rfl⟩
    · intro c hc
      simp [parseError, hc]
    · intro m hm
      simp [parseError, hm]
  · simp [parseError]

/-- Claim C5 witness: a body-less 404 yields UNKNOWN_ERROR, the default
message, and is not retryable; an enveloped 503 propagates the envelope and
is retryable. -/
theorem apiClient_error_envelope_witness :
    (parseError 404 none).code = "UNKNOWN_ERROR" ∧
    (parseError 404 none).message = "Request failed with status 404." ∧
    (parseError 404 none).retryable = false ∧
    (parseError 503
      (some ⟨some ⟨some "STORAGE_WRITE_FAILED", some "disk", some "req_9"⟩⟩)).code =
        "STORAGE_WRITE_FAILED" ∧
    (parseError 503
      (some ⟨some ⟨some "STORAGE_WRITE_FAILED", some "disk", some "req_9"⟩⟩)).retryable =
        true := by
  have h404 := apiClient_error_envelope 404 none (by decide)
  have h503 := apiClient_error_envelope 503
    (some ⟨some ⟨some "STORAGE_WRITE_FAILED", some "disk", some "req_9"⟩⟩) (by decide)
  refine ⟨(h404.2.1 rfl).1, (h404.2.1 rfl).2, ?_, ?_, ?_⟩
  · cases hb : (parseError 404 none).retryable
    · rfl
    · exact absurd (h404.2.2.2.mp hb) (by omega)
  · exact (h503.2.2.1 _ rfl).1 "STORAGE_WRITE_FAILED" rfl
  · exact h503.2.2.2.mpr (Or.inl (by omega))

/-- Claim C6: neither the Prompt Workbench submit handler nor the Eval
Workbench runEval issues its API call when the trimmed prompt is shorter
than 5 characters, and every call they do issue carries a trimmed prompt of
length at least 5. -/
theorem min_prompt_guard :
    (∀ (prompt seed : String) (parent : Option String),
      ((jsTrim prompt).length < minPromptLength →
        promptWorkbenchSubmit prompt seed parent = none) ∧
      (∀ call, promptWorkbenchSubmit prompt seed parent = some call →
        minPromptLength ≤ call.prompt.length)) ∧
    (∀ (projectId : String) (controls : EvalControlState)
        (decision : BranchDecision) (promptOverride : Option String),
      ((jsTrim (promptOverride.getD controls.basePrompt)).length < 5 →
        runEvalPayload projectId controls decision promptOverride = none) ∧
      (∀ payload,
        runEvalPayload projectId controls decision promptOverride = some payload →
        5 ≤ payload.base_prompt.length)) := by
  constructor
  · intro prompt seed parent
    constructor
    · intro h
      simp [promptWorkbenchSubmit, h]
    · intro call hc
      by_cases h : (jsTrim prompt).length < minPromptLength
      · simp [promptWorkbenchSubmit, h] at hc
      · simp [promptWorkbenchSubmit, h] at hc
        subst hc
        simpa using Nat.le_of_not_lt h
  · intro projectId controls decision promptOverride
    constructor
    · intro h
      simp [runEvalPayload, h]
    · intro payload hc
      by_cases h : (jsTrim (promptOverride.getD controls.basePrompt)).length < 5
      · simp [runEvalPayload, h] at hc
      · simp [runEvalPayload, h] at hc
        subst hc
        simpa using Nat.le_of_not_lt h

/-- Claim C6 witness: a 2-character prompt is rejected by both handlers; a
5-character prompt goes through with the trimmed prompt. -/
theorem min_prompt_guard_witness :
    promptWorkbenchSubmit "hi" "" none = none ∧
    runEvalPayload "p" defaultControls
      { mode := BranchMode.new_anchor } (some "hey") = none ∧
    (∀ call, promptWorkbenchSubmit " hello " "" none = some call →
      minPromptLength ≤ call.prompt.length) :=
  ⟨(min_prompt_guard.1 "hi" "" none).1 (by decide),
   (min_prompt_guard.2 "p" defaultControls { mode := BranchMode.new_anchor }
     (some "hey")).1 (by decide),
   (min_prompt_guard.1 " hello " "" none).2⟩

/-- Claim C7: readControls coerces any persisted variant count other than 2
or 3 back to 3 and any unrecognized objective preset to "adherence"; every
payload runEval builds from such controls therefore has n_variants in {2,3},
quality "medium", and objective_preset among adherence, aesthetic and
product. -/
theorem evalControls_invariant (raw : Option PartialEvalControls) :
    ((readControls raw).variantCount = 2 ∨ (readControls raw).variantCount = 3) ∧
    ((readControls raw).objectivePreset = "adherence" ∨
      (readControls raw).objectivePreset = "aesthetic" ∨
      (readControls raw).objectivePreset = "product") ∧
    (∀ (projectId : String) (decision : BranchDecision)
        (promptOverride : Option String) (payload : CreateEvalRunRequest),
      runEvalPayload projectId (readControls raw) decision promptOverride =
        some payload →
      (payload.n_variants = 2 ∨ payload.n_variants = 3) ∧
      payload.quality = "medium" ∧
      (payload.objective_preset = "adherence" ∨
        payload.objective_preset = "aesthetic" ∨
        payload.objective_preset = "product")) := by
  have hv : (readControls raw).variantCount = 2 ∨ (readControls raw).variantCount = 3 := by
    match raw with
    | none => exact Or.inr rfl
    | some parsed =>
        simp only [readControls, readControlsParsed]
        split
        · exact Or.inl rfl
        · split
          · exact Or.inr rfl
          · exact Or.inr rfl
  have ho : (readControls raw).objectivePreset = "adherence" ∨
      (readControls raw).objectivePreset = "aesthetic" ∨
      (readControls raw).objectivePreset = "product" := by
    match raw with
    | none => exact Or.inl rfl
    | some parsed =>
        simp only [readControls, readControlsParsed]
        split
        · exact Or.inr (Or.inl rfl)
        · split
          · exact Or.inr (Or.inr rfl)
          · exact Or.inl rfl
  refine ⟨hv, ho, ?_⟩
  intro projectId decision promptOverride payload hc
  by_cases h : (jsTrim (promptOverride.getD (readControls raw).basePrompt)).length < 5
  · simp [runEvalPayload, h] at hc
  · simp [runEvalPayload, h] at hc
    subst hc
    exact ⟨hv, rfl, ho⟩

/-- Claim C7 witness: a stored variant count of 7 and preset "bogus" are
coerced back into range. -/
theorem evalControls_invariant_witness :
    ((readControls (some { variantCount := some 7, objectivePreset := some "bogus" })).variantCount = 2 ∨
      (readControls (some { variantCount := some 7, objectivePreset := some "bogus" })).variantCount = 3) ∧
    ((readControls (some { variantCount := some 7, objectivePreset := some "bogus" })).objectivePreset = "adherence" ∨
      (readControls (some { variantCount := some 7, objectivePreset := some "bogus" })).objectivePreset = "aesthetic" ∨
      (readControls (some { variantCount := some 7, objectivePreset := some "bogus" })).objectivePreset = "product") :=
  ⟨(evalControls_invariant _).1, (evalControls_invariant _).2.1⟩

/-- Claim C8 is false as stated: a supplied empty cursor is a cursor
argument, yet `if (cursor)` drops it, so the query of
`getHistory("default", 20, "")` contains no cursor parameter. -/
theorem getHistory_cursor_counterexample :
    (some "" : Option String) ≠ none ∧
    getHistoryQuery "default" 20 (some "") =
      [("project_id", "default"), ("limit", "20")] ∧
    ¬ ("cursor" ∈ (getHistoryQuery "default" 20 (some "")).map Prod.fst) := by
  refine ⟨by simp, rfl, by decide⟩

/-- Claim C8 (amended): a getHistory call without an explicit limit uses
limit=20 — the query always contains the pair ("limit", "20") — and the
cursor parameter is included exactly when a non-empty cursor argument is
supplied (an empty-string cursor is dropped by the truthiness test). -/
theorem getHistory_default_limit (projectId : String) (cursor : Option String) :
    getHistoryQuery projectId =
      [("project_id", projectId), ("limit", "20")] ∧
    ("limit", "20") ∈ getHistoryQuery projectId 20 cursor ∧
    (("cursor" ∈ (getHistoryQuery projectId 20 cursor).map Prod.fst) ↔
      ∃ c, cursor = some c ∧ c ≠ "") := by
  have htos : toString (20 : Nat) = "20" := rfl
  refine ⟨rfl, ?_, ?_⟩
  · match cursor with
    | none => simp [getHistoryQuery, strTruthy, htos]
    | some c =>
        by_cases hc : c.isEmpty
        · simp [getHistoryQuery, strTruthy, hc, htos]
        · simp [getHistoryQuery, strTruthy, hc, htos]
  · match cursor with
    | none =>
        constructor
        · intro hmem
          simp [getHistoryQuery, strTruthy] at hmem
        · rintro ⟨c, hc, -⟩
          cases hc
    | some c =>
        by_cases hc : c.isEmpty = true
        · have hce : c = "" := (String.isEmpty_iff c).mp hc
          subst hce
          constructor
          · intro hmem
            simp [getHistoryQuery, strTruthy, hc] at hmem
          · rintro ⟨c2, hc2, hne⟩
            cases hc2
            exact absurd rfl hne
        · constructor
          · intro _
            exact ⟨c, rfl, fun hce => hc ((String.isEmpty_iff c).mpr hce)⟩
          · intro _
            simp [getHistoryQuery, strTruthy, hc]

/-- Claim C8 witness: the default call carries limit=20 and no cursor, and a
non-empty cursor is appended. -/
theorem getHistory_default_limit_witness :
    getHistoryQuery "default" = [("project_id", "default"), ("limit", "20")] ∧
    ("cursor" ∈ (getHistoryQuery "default" 20 (some "c0009")).map Prod.fst) :=
  ⟨(getHistory_default_limit "default" none).1,
   (getHistory_default_limit "default" (some "c0009")).2.2.mpr
     ⟨"c0009", rfl, by decide⟩⟩

theorem runEvalPayload_parent (projectId : String) (controls : EvalControlState)
    (decision : BranchDecision) (promptOverride : Option String)
    (payload : CreateEvalRunRequest)
    (h : runEvalPayload projectId controls decision promptOverride = some payload) :
    payload.parent_commit_id = valueOrNone decision.parentCommitId := by
  by_cases hl : (jsTrim (promptOverride.getD controls.basePrompt)).length < 5
  · simp [runEvalPayload, hl] at h
  · simp [runEvalPayload, hl] at h
    subst h
    rfl

/-- Claim C9: resolveWinnerBranchDecision yields mode "winner" exactly when
the top leaderboard variant exists, carries a persisted (truthy) commit_id,
has confidence at least WINNER_MIN_CONFIDENCE (0.62), and — whenever a
runner-up exists — leads its composite_score by at least
WINNER_MIN_SCORE_MARGIN (0.035); in winner mode the parent of the decision is the
commit of the top variant, in every other mode the (truthiness-normalized) parent
equals the anchor, and runEval forwards the parent of the decision (through
`|| undefined`) as the parent_commit_id of the payload. -/
theorem winnerBranch_decision (leaderboard : List EvalVariant)
    (anchor : Option String) :
    ((resolveWinnerBranchDecision leaderboard anchor).mode = BranchMode.winner ↔
      ∃ top, leaderboard[0]? = some top ∧ strTruthy top.commit_id = true ∧
        WINNER_MIN_CONFIDENCE ≤ top.confidence ∧
        (∀ r, leaderboard[1]? = some r →
          WINNER_MIN_SCORE_MARGIN ≤ top.composite_score - r.composite_score)) ∧
    (∀ top, leaderboard[0]? = some top →
      (resolveWinnerBranchDecision leaderboard anchor).mode = BranchMode.winner →
      (resolveWinnerBranchDecision leaderboard anchor).parentCommitId =
        top.commit_id) ∧
    ((resolveWinnerBranchDecision leaderboard anchor).mode ≠ BranchMode.winner →
      valueOrNone (resolveWinnerBranchDecision leaderboard anchor).parentCommitId =
        valueOrNone anchor) ∧
    (∀ (projectId : String) (controls : EvalControlState)
        (promptOverride : Option String) (payload : CreateEvalRunRequest),
      runEvalPayload projectId controls
          (resolveWinnerBranchDecision leaderboard anchor) promptOverride =
        some payload →
      payload.parent_commit_id =
        valueOrNone (resolveWinnerBranchDecision leaderboard anchor).parentCommitId) := by
  refine ?_
  have hpayload : ∀ (projectId : String) (controls : EvalControlState)
      (promptOverride : Option String) (payload : CreateEvalRunRequest),
      runEvalPayload projectId controls
          (resolveWinnerBranchDecision leaderboard anchor) promptOverride =
        some payload →
      payload.parent_commit_id =
        valueOrNone (resolveWinnerBranchDecision leaderboard anchor).parentCommitId :=
    fun pid c po pay h => runEvalPayload_parent pid c _ po pay h
  cases h0 : leaderboard[0]? with
  | none =>
      refine ⟨?_, ?_, ?_, hpayload⟩
      · constructor
        · intro hm
          by_cases ha : strTruthy anchor = true <;>
            simp [resolveWinnerBranchDecision, h0, ha] at hm
        · rintro ⟨top, htop, -⟩
          simp at htop
      · intro top htop
        simp at htop
      · intro _
        by_cases ha : strTruthy anchor = true <;>
          simp [resolveWinnerBranchDecision, h0, ha, valueOrNone, strTruthy_none]
  | some top =>
      by_cases hcommit : strTruthy top.commit_id = true
      · cases h1 : leaderboard[1]? with
        | none =>
            by_cases hconf : top.confidence < WINNER_MIN_CONFIDENCE
            · refine ⟨?_, ?_, ?_, hpayload⟩
              · constructor
                · intro hm
                  by_cases ha : strTruthy anchor = true <;>
                    simp [resolveWinnerBranchDecision, h0, h1, hcommit, hconf, ha] at hm
                · rintro ⟨top2, htop2, -, hc2, -⟩
                  cases htop2
                  exact absurd hc2 (not_le_of_lt hconf)
              · intro top2 htop2 hm
                cases htop2
                by_cases ha : strTruthy anchor = true <;>
                  simp [resolveWinnerBranchDecision, h0, h1, hcommit, hconf, ha] at hm
              · intro _
                simp [resolveWinnerBranchDecision, h0, h1, hcommit, hconf]
            · refine ⟨?_, ?_, ?_, hpayload⟩
              · constructor
                · intro _
                  refine ⟨top, rfl, hcommit, le_of_not_lt hconf, ?_⟩
                  intro r hr
                  simp at hr
                · intro _
                  simp [resolveWinnerBranchDecision, h0, h1, hcommit, hconf]
              · intro top2 htop2 _
                cases htop2
                simp [resolveWinnerBranchDecision, h0, h1, hcommit, hconf]
              · intro hm
                exact absurd
                  (by simp [resolveWinnerBranchDecision, h0, h1, hcommit, hconf]) hm
        | some r =>
            by_cases hconf : top.confidence < WINNER_MIN_CONFIDENCE
            · refine ⟨?_, ?_, ?_, hpayload⟩
              · constructor
                · intro hm
                  by_cases ha : strTruthy anchor = true <;>
                    simp [resolveWinnerBranchDecision, h0, h1, hcommit, hconf, ha] at hm
                · rintro ⟨top2, htop2, -, hc2, -⟩
                  cases htop2
                  exact absurd hc2 (not_le_of_lt hconf)
              · intro top2 htop2 hm
                cases htop2
                by_cases ha : strTruthy anchor = true <;>
                  simp [resolveWinnerBranchDecision, h0, h1, hcommit, hconf, ha] at hm
              · intro _
                simp [resolveWinnerBranchDecision, h0, h1, hcommit, hconf]
            · by_cases hmar : top.composite_score - r.composite_score <
                  WINNER_MIN_SCORE_MARGIN
              · refine ⟨?_, ?_, ?_, hpayload⟩
                · constructor
                  · intro hm
                    by_cases ha : strTruthy anchor = true <;>
                      simp [resolveWinnerBranchDecision, h0, h1, hcommit, hconf, hmar,
                        ha] at hm
                  · rintro ⟨top2, htop2, -, -, hmargins⟩
                    cases htop2
                    exact absurd (hmargins r rfl) (not_le_of_lt hmar)
                · intro top2 htop2 hm
                  cases htop2
                  by_cases ha : strTruthy anchor = true <;>
                    simp [resolveWinnerBranchDecision, h0, h1, hcommit, hconf, hmar,
                      ha] at hm
                · intro _
                  simp [resolveWinnerBranchDecision, h0, h1, hcommit, hconf, hmar]
              · refine ⟨?_, ?_, ?_, hpayload⟩
                · constructor
                  · intro _
                    refine ⟨top, rfl, hcommit, le_of_not_lt hconf, ?_⟩
                    intro r2 hr2
                    cases hr2
                    exact le_of_not_lt hmar
                  · intro _
                    simp [resolveWinnerBranchDecision, h0, h1, hcommit, hconf, hmar]
                · intro top2 htop2 _
                  cases htop2
                  simp [resolveWinnerBranchDecision, h0, h1, hcommit, hconf, hmar]
                · intro hm
                  exact absurd
                    (by simp [resolveWinnerBranchDecision, h0, h1, hcommit, hconf,
                      hmar]) hm
      · refine ⟨?_, ?_, ?_, hpayload⟩
        · constructor
          · intro hm
            by_cases ha : strTruthy anchor = true <;>
              simp [resolveWinnerBranchDecision, h0, hcommit, ha] at hm
          · rintro ⟨top2, htop2, hc2, -⟩
            cases htop2
            exact (hcommit hc2).elim
        · intro top2 htop2 hm
          cases htop2
          by_cases ha : strTruthy anchor = true <;>
            simp [resolveWinnerBranchDecision, h0, hcommit, ha] at hm
        · intro _
          by_cases ha : strTruthy anchor = true <;>
            simp [resolveWinnerBranchDecision, h0, hcommit, ha, valueOrNone, strTruthy_none]

/-- Claim C9 witness: a sole leaderboard leader with a persisted commit and
confidence 0.70 is followed as the winner. -/
theorem winnerBranch_decision_witness :
    (resolveWinnerBranchDecision
        [{ variant_id := "v1", commit_id := some "c9", confidence := 7 / 10,
           composite_score := 1 / 2 }] (some "c0")).mode = BranchMode.winner := by
  refine (winnerBranch_decision _ _).1.mpr ⟨_, rfl, rfl, ?_, ?_⟩
  · norm_num [WINNER_MIN_CONFIDENCE]
  · intro r hr
    simp at hr

end Promptsmith
